import Mathlib

/-!
Verification of the famfin-back personal-finance backend (src/main.py).

The relational store is modelled as explicit lists of rows; each request
handler becomes a function from the request parameters and the database
state to a result (an `Except` of an HTTP error and a response value)
together with the database state after the handler ran.  Monetary
amounts (Python floats) are modelled as rationals; dates as
year/month/day triples ordered lexicographically, which agrees with
calendar order on valid dates.
-/

namespace FamFin

/-- A calendar date as produced by Python `datetime.date`. -/
structure PyDate where
  year : Nat
  month : Nat
  day : Nat
deriving DecidableEq, Repr

/-- Strict calendar order on dates (lexicographic on year, month, day). -/
def dateLt (a b : PyDate) : Bool :=
  decide (a.year < b.year) ||
    (a.year == b.year &&
      (decide (a.month < b.month) ||
        (a.month == b.month && decide (a.day < b.day))))

/-- Non-strict calendar order on dates. -/
def dateLe (a b : PyDate) : Bool :=
  dateLt a b || a == b

/-- Gregorian leap-year test, as in Python `datetime`. -/
def isLeapYear (y : Nat) : Bool :=
  y % 4 == 0 && (y % 100 != 0 || y % 400 == 0)

/-- Number of days of a month, as in Python `datetime`. -/
def daysInMonth (y m : Nat) : Nat :=
  if m == 2 then (if isLeapYear y then 29 else 28)
  else if m == 4 || m == 6 || m == 9 || m == 11 then 30
  else 31

/-- Python `date(y, m, d)`: validates the month and the day and raises
`ValueError` (here `none`) on out-of-range arguments. -/
def mkDate (y m d : Nat) : Option PyDate :=
  if 1 ≤ m && m ≤ 12 && 1 ≤ d && d ≤ daysInMonth y m then some ⟨y, m, d⟩
  else none

/-- Row of the `users` table. -/
structure User where
  id : Nat
  username : String
  email : String
  password : String
  account_balance : Rat
deriving DecidableEq, Repr

/-- Row of the `expenses` table.  The `category` column holds the
serialized JSON breakdown string, as in the source. -/
structure Expense where
  id : Nat
  amount : Rat
  category : String
  date : PyDate
  user_id : Nat
deriving DecidableEq, Repr

/-- Row of the `budget_allocation` table.  The seven category columns are
nullable (the request model allows `null`, which SQLAlchemy stores as
NULL), hence `Option Rat`. -/
structure BudgetAllocationTable where
  id : Nat
  user_id : Nat
  groceries : Option Rat
  fuel : Option Rat
  bills : Option Rat
  travel : Option Rat
  apparel : Option Rat
  utilities : Option Rat
  other : Option Rat
deriving DecidableEq, Repr

/-- Row of the `expense_category` table; `user_id` is nullable
(NULL marks a predefined/global category). -/
structure Expensecategory where
  id : Nat
  name : String
  user_id : Option Nat
deriving DecidableEq, Repr

/-- The relational store, with the autoincrement counters of the three
tables whose rows the handlers insert. -/
structure DB where
  users : List User
  expenses : List Expense
  budget_allocations : List BudgetAllocationTable
  categories : List Expensecategory
  next_expense_id : Nat
  next_allocation_id : Nat
  next_category_id : Nat
deriving DecidableEq, Repr

/-- A FastAPI `HTTPException`, or an unhandled exception surfaced as a
500 response. -/
structure HTTPException where
  status_code : Nat
  detail : String
deriving DecidableEq, Repr

/-- Request body of POST /expenses/ (`ExpenseCreate`). -/
structure ExpenseCreate where
  groceries : Rat
  fuel : Rat
  bills : Rat
  travel : Rat
  apparel : Rat
  utilities : Rat
  other : Rat
  date : PyDate
deriving DecidableEq, Repr

/-- Request body of POST /budgets/ (`BudgetAllocation`): every field is
`Optional[float]`. -/
structure BudgetAllocation where
  groceries : Option Rat
  fuel : Option Rat
  bills : Option Rat
  travel : Option Rat
  apparel : Option Rat
  utilities : Option Rat
  other : Option Rat
deriving DecidableEq, Repr

/-- Response model of POST /expenses/ (`ExpenseResponse`). -/
structure ExpenseResponse where
  id : Nat
  amount : Rat
  category : String
  date : PyDate
  user_id : Nat
deriving DecidableEq, Repr

/-- Response model of GET /expenses/categories/ entries
(`ExpenseCategoryResponse`): `user_id` is a non-nullable `int`. -/
structure ExpenseCategoryResponse where
  id : Nat
  name : String
  user_id : Nat
deriving DecidableEq, Repr

/-- Response of GET /expenses/monthly/: the grand total and the
per-category sums, grouping by the raw stored `category` string. -/
structure MonthlyResponse where
  total_expense : Rat
  categories : List (String × Rat)
deriving DecidableEq, Repr

/-- Replace the first element satisfying `p` (SQLAlchemy mutates the one
row object loaded by `.first()` and commits it back). -/
def updateFirst (p : α → Bool) (f : α → α) : List α → List α
  | [] => []
  | x :: xs => if p x then f x :: xs else x :: updateFirst p f xs

/-- Sum of the amounts of a list of expense rows (SQL `SUM`, with the
`or 0.0` default on the empty set). -/
def sumAmounts (l : List Expense) : Rat :=
  l.foldl (fun acc e => acc + e.amount) 0

/-- SQL `GROUP BY category` with `SUM(amount)`: one entry per distinct
stored category string, in order of first occurrence. -/
def groupCategories (l : List Expense) : List (String × Rat) :=
  ((l.map (fun e => e.category)).eraseDups).map
    (fun c => (c, sumAmounts (l.filter (fun e => e.category == c))))

/-- Total of an `ExpenseCreate`: the sum of the seven category
sub-amounts (every model field except `date`). -/
def expenseTotal (e : ExpenseCreate) : Rat :=
  e.groceries + e.fuel + e.bills + e.travel + e.apparel + e.utilities + e.other

/-- The `json.dumps` of the per-category breakdown, keys in model-field
order. -/
def serializeCategories (e : ExpenseCreate) : String :=
  "\x7b\"groceries\": " ++ toString e.groceries ++
    ", \"fuel\": " ++ toString e.fuel ++
    ", \"bills\": " ++ toString e.bills ++
    ", \"travel\": " ++ toString e.travel ++
    ", \"apparel\": " ++ toString e.apparel ++
    ", \"utilities\": " ++ toString e.utilities ++
    ", \"other\": " ++ toString e.other ++ "\x7d"

/-- POST /expenses/ (`create_expense`): inserts the expense row and
commits, then looks the user up; a missing user raises 404 only after
that first commit, so the expense row stays; otherwise the user's
balance is decremented by the expense amount in a second commit. -/
def create_expense (expense : ExpenseCreate) (user_id : Nat) (db : DB) :
    Except HTTPException ExpenseResponse × DB :=
  let db_expense : Expense :=
    { id := db.next_expense_id
      amount := expenseTotal expense
      category := serializeCategories expense
      date := expense.date
      user_id := user_id }
  let db1 : DB :=
    { db with
      expenses := db.expenses ++ [db_expense]
      next_expense_id := db.next_expense_id + 1 }
  match db1.users.find? (fun u => u.id == user_id) with
  | none => (Except.error ⟨404, "User not found"⟩, db1)
  | some _ =>
      let db2 : DB :=
        { db1 with
          users := updateFirst (fun u => u.id == user_id)
            (fun u => { u with account_balance := u.account_balance - db_expense.amount })
            db1.users }
      (Except.ok
        ⟨db_expense.id, db_expense.amount, db_expense.category,
          db_expense.date, db_expense.user_id⟩, db2)

/-- Python truthiness of `value and value < 0` on an `Optional[float]`:
`None` and `0.0` are falsy, otherwise the comparison decides. -/
def negTruthy (v : Option Rat) : Bool :=
  match v with
  | none => false
  | some x => if x == 0 then false else decide (x < 0)

/-- The guard `any(value and value < 0 for value in budget.dict().values())`. -/
def budgetHasNegative (b : BudgetAllocation) : Bool :=
  [b.groceries, b.fuel, b.bills, b.travel, b.apparel, b.utilities, b.other].any negTruthy

/-- Overwrite every category field of an allocation row with the request
values (the `setattr` loop; keys are already lower-case). -/
def applyBudget (b : BudgetAllocation) (r : BudgetAllocationTable) :
    BudgetAllocationTable :=
  { r with
    groceries := b.groceries
    fuel := b.fuel
    bills := b.bills
    travel := b.travel
    apparel := b.apparel
    utilities := b.utilities
    other := b.other }

/-- POST /budgets/ (`allocate_budget`): rejects any negative value with
400; otherwise upserts the single allocation row of the user. -/
def allocate_budget (budget : BudgetAllocation) (user_id : Nat) (db : DB) :
    Except HTTPException BudgetAllocationTable × DB :=
  if budgetHasNegative budget then
    (Except.error ⟨400, "Budget values cannot be negative"⟩, db)
  else
    match db.budget_allocations.find? (fun r => r.user_id == user_id) with
    | none =>
        let row : BudgetAllocationTable :=
          { id := db.next_allocation_id
            user_id := user_id
            groceries := budget.groceries
            fuel := budget.fuel
            bills := budget.bills
            travel := budget.travel
            apparel := budget.apparel
            utilities := budget.utilities
            other := budget.other }
        (Except.ok row,
          { db with
            budget_allocations := db.budget_allocations ++ [row]
            next_allocation_id := db.next_allocation_id + 1 })
    | some r =>
        (Except.ok (applyBudget budget r),
          { db with
            budget_allocations :=
              updateFirst (fun x => x.user_id == user_id) (applyBudget budget)
                db.budget_allocations })

/-- The filter of the monthly queries:
`date >= start_date, date < end_date, user_id == user_id`. -/
def monthlyFilter (start_date end_date : PyDate) (user_id : Nat)
    (e : Expense) : Bool :=
  dateLe start_date e.date && dateLt e.date end_date && e.user_id == user_id

/-- GET /expenses/monthly/ (`calculate_monthly_expenses`): builds the
half-open range [first of month, first of next month), rolling December
to January of the next year, and sums the matching expenses; an invalid
month makes `date()` raise, surfaced as a 500. -/
def calculate_monthly_expenses (user_id month year : Nat) (db : DB) :
    Except HTTPException MonthlyResponse :=
  match mkDate year month 1 with
  | none => Except.error ⟨500, "Internal Server Error"⟩
  | some start_date =>
      match (if month < 12 then mkDate year (month + 1) 1 else mkDate (year + 1) 1 1) with
      | none => Except.error ⟨500, "Internal Server Error"⟩
      | some end_date =>
          let matching :=
            db.expenses.filter (monthlyFilter start_date end_date user_id)
          Except.ok ⟨sumAmounts matching, groupCategories matching⟩

/-- The dictionary the get_budget_status handler returns:
`budget_allocation.__dict__` with `_sa_instance_state` popped, i.e. every
column of the row — the `id` and `user_id` columns included — keyed by
column name.  Integer columns are numbers (always coercible to float),
the seven category columns may be NULL. -/
def budgetStatusDict (r : BudgetAllocationTable) : List (String × Option Rat) :=
  [("id", some (r.id : Rat)),
   ("user_id", some (r.user_id : Rat)),
   ("groceries", r.groceries),
   ("fuel", r.fuel),
   ("bills", r.bills),
   ("travel", r.travel),
   ("apparel", r.apparel),
   ("utilities", r.utilities),
   ("other", r.other)]

/-- Validation of the returned dictionary against the
`BudgetStatusResponse` model (`total_allocated: Dict[str, float]`): every
value must be a number, so a NULL (`None`) value anywhere rejects the
whole response (modelled as `none`). -/
def validateBudgetStatus : List (String × Option Rat) → Option (List (String × Rat))
  | [] => some []
  | (_, none) :: _ => none
  | (k, some x) :: rest =>
      match validateBudgetStatus rest with
      | none => none
      | some l => some ((k, x) :: l)

/-- GET /budgets/status/ (`get_budget_status`): 404 when the user has no
allocation row; otherwise the handler returns the row's column
dictionary, which FastAPI then validates against the declared
`response_model`; a NULL category column fails that validation and the
request is surfaced as a 500.  The remaining-budget dictionary the
handler computes is dead code and is not part of the response. -/
def get_budget_status (user_id : Nat) (db : DB) :
    Except HTTPException (List (String × Rat)) :=
  match db.budget_allocations.find? (fun r => r.user_id == user_id) with
  | none => Except.error ⟨404, "Budget allocation not found"⟩
  | some r =>
      match validateBudgetStatus (budgetStatusDict r) with
      | none => Except.error ⟨500, "Internal Server Error"⟩
      | some resp => Except.ok resp

/-- POST /expenses/categories/{user_id}/add (`add_category`): returns the
already-exists message when a row with this user and name exists,
otherwise inserts a new row and commits. -/
def add_category (user_id : Nat) (category_name : String) (db : DB) :
    String × DB :=
  match db.categories.find?
      (fun c => c.user_id == some user_id && c.name == category_name) with
  | some _ => ("Category already exists", db)
  | none =>
      ("Category added successfully",
        { db with
          categories := db.categories ++
            [{ id := db.next_category_id
               name := category_name
               user_id := some user_id }]
          next_category_id := db.next_category_id + 1 })

/-- Pydantic construction of an `ExpenseCategoryResponse`: the `user_id`
field is a non-nullable `int`, so a NULL owner raises a
`ValidationError` (modelled as `none`). -/
def toCategoryResponse (c : Expensecategory) : Option ExpenseCategoryResponse :=
  match c.user_id with
  | none => none
  | some uid => some ⟨c.id, c.name, uid⟩

/-- GET /expenses/categories/{user_id} (`get_user_categories`): fetches
the predefined (NULL-owner) categories, then the user's own, combines
them and builds the response objects; any exception inside the `try` —
the pydantic `ValidationError` included — is caught and surfaced as a
500. -/
def get_user_categories (user_id : Nat) (db : DB) :
    Except HTTPException (List ExpenseCategoryResponse) :=
  let predefined_categories := db.categories.filter (fun c => c.user_id == none)
  let user_categories := db.categories.filter (fun c => c.user_id == some user_id)
  let all_categories := predefined_categories ++ user_categories
  match all_categories.mapM toCategoryResponse with
  | none => Except.error ⟨500, "Error fetching categories"⟩
  | some response_categories => Except.ok response_categories

/-- POST /balance/ (`update_balance`): 404 when the user is missing,
otherwise adds `new_amount` to the account balance and commits. -/
def update_balance (new_amount : Rat) (user_id : Nat) (db : DB) :
    Except HTTPException User × DB :=
  match db.users.find? (fun u => u.id == user_id) with
  | none => (Except.error ⟨404, "User not found"⟩, db)
  | some u =>
      let u2 : User := { u with account_balance := u.account_balance + new_amount }
      (Except.ok u2,
        { db with
          users := updateFirst (fun x => x.id == user_id)
            (fun x => { x with account_balance := x.account_balance + new_amount })
            db.users })

/-! ## List lemmas about the access patterns of the handlers -/

theorem find?_eq_head?_filter (p : α → Bool) (l : List α) :
    l.find? p = (l.filter p).head? := by
  induction l with
  | nil => rfl
  | cons a t ih =>
      rw [List.find?_cons, List.filter_cons]
      cases h : p a with
      | false => exact ih
      | true => rfl

theorem head?_modifyHead (f : α → α) (l : List α) :
    (l.modifyHead f).head? = l.head?.map f := by
  cases l <;> simp

theorem filter_updateFirst (p : α → Bool) (f : α → α) (l : List α)
    (hp : ∀ a, p (f a) = p a) :
    (updateFirst p f l).filter p = (l.filter p).modifyHead f := by
  induction l with
  | nil => rfl
  | cons a t ih =>
      by_cases h : p a = true
      · simp [updateFirst, h, List.filter_cons, hp a]
      · simp only [Bool.not_eq_true] at h
        simp [updateFirst, h, List.filter_cons, ih]

theorem find?_updateFirst (p : α → Bool) (f : α → α) (l : List α)
    (hp : ∀ a, p (f a) = p a) :
    (updateFirst p f l).find? p = (l.find? p).map f := by
  rw [find?_eq_head?_filter, find?_eq_head?_filter, filter_updateFirst p f l hp,
    head?_modifyHead]

theorem find?_of_mem_unique (p : α → Bool) (l : List α) (r : α)
    (hm : r ∈ l) (hp : p r = true) (hu : ∀ x ∈ l, p x = true → x = r) :
    l.find? p = some r := by
  induction l with
  | nil => cases hm
  | cons a t ih =>
      by_cases h : p a = true
      · have ha : a = r := hu a (List.mem_cons_self a t) h
        subst ha
        simp [List.find?_cons, h]
      · simp only [Bool.not_eq_true] at h
        have hm2 : r ∈ t := by
          rcases List.mem_cons.mp hm with rfl | hmt
          · rw [hp] at h; cases h
          · exact hmt
        simp [List.find?_cons, h]
        exact ih hm2 (fun x hx => hu x (List.mem_cons_of_mem a hx))

theorem filter_singleton_of_find?_le_one (p : α → Bool) (l : List α) (a : α)
    (hf : l.find? p = some a) (hl : (l.filter p).length ≤ 1) :
    l.filter p = [a] := by
  rw [find?_eq_head?_filter] at hf
  cases hfl : l.filter p with
  | nil => rw [hfl] at hf; cases hf
  | cons b t =>
      rw [hfl] at hf hl
      simp only [List.head?_cons, Option.some.injEq] at hf
      subst hf
      cases t with
      | nil => rfl
      | cons c t2 => simp at hl

/-! ## C1: create_expense stores the sum and debits the balance -/

/-- C1: for every create_expense request on an existing user, the stored
expense amount (and the response amount) is the sum of the seven supplied
category sub-amounts, and the owning user's account balance is
decremented by exactly that total. -/
theorem create_expense_stores_sum_and_debits_balance
    (exp : ExpenseCreate) (uid : Nat) (db : DB) (u : User)
    (hu : db.users.find? (fun x => x.id == uid) = some u) :
    ∃ resp : ExpenseResponse,
      (create_expense exp uid db).1 = Except.ok resp ∧
      resp.amount = exp.groceries + exp.fuel + exp.bills + exp.travel +
        exp.apparel + exp.utilities + exp.other ∧
      (∃ stored : Expense,
        (create_expense exp uid db).2.expenses = db.expenses ++ [stored] ∧
        stored.amount = resp.amount) ∧
      (create_expense exp uid db).2.users.find? (fun x => x.id == uid) =
        some { u with account_balance :=
                 u.account_balance - (exp.groceries + exp.fuel + exp.bills +
                   exp.travel + exp.apparel + exp.utilities + exp.other) } := by
  refine ⟨⟨db.next_expense_id, expenseTotal exp, serializeCategories exp,
    exp.date, uid⟩, ?_, rfl, ?_, ?_⟩
  · simp [create_expense, hu]
  · refine ⟨⟨db.next_expense_id, expenseTotal exp, serializeCategories exp,
      exp.date, uid⟩, ?_, rfl⟩
    simp [create_expense, hu]
  · have hp : ∀ a : User,
        ((fun x => x.id == uid) ({ a with account_balance :=
          a.account_balance - expenseTotal exp } : User)) =
        ((fun x => x.id == uid) a) := fun a => rfl
    simp only [create_expense, hu]
    rw [find?_updateFirst _ _ _ hp, hu]
    rfl

/-- Witness for C1: the spec's concrete example, a user with balance 100
and sub-amounts 10 and 5 for groceries and fuel: the stored amount is 15
and the balance after is 85. -/
theorem create_expense_stores_sum_and_debits_balance_witness :
    ∃ resp : ExpenseResponse,
      (create_expense ⟨10, 5, 0, 0, 0, 0, 0, ⟨2024, 5, 1⟩⟩ 1
        ⟨[⟨1, "alice", "alice@example.com", "hash", 100⟩], [], [], [], 0, 0, 0⟩).1 =
        Except.ok resp ∧
      resp.amount = 10 + 5 + 0 + 0 + 0 + 0 + 0 ∧
      (∃ stored : Expense,
        (create_expense ⟨10, 5, 0, 0, 0, 0, 0, ⟨2024, 5, 1⟩⟩ 1
          ⟨[⟨1, "alice", "alice@example.com", "hash", 100⟩], [], [], [], 0, 0, 0⟩).2.expenses =
          [] ++ [stored] ∧
        stored.amount = resp.amount) ∧
      (create_expense ⟨10, 5, 0, 0, 0, 0, 0, ⟨2024, 5, 1⟩⟩ 1
        ⟨[⟨1, "alice", "alice@example.com", "hash", 100⟩], [], [], [], 0, 0, 0⟩).2.users.find?
          (fun x => x.id == 1) =
        some { id := 1, username := "alice", email := "alice@example.com",
               password := "hash",
               account_balance := 100 - (10 + 5 + 0 + 0 + 0 + 0 + 0) } :=
  create_expense_stores_sum_and_debits_balance
    ⟨10, 5, 0, 0, 0, 0, 0, ⟨2024, 5, 1⟩⟩ 1
    ⟨[⟨1, "alice", "alice@example.com", "hash", 100⟩], [], [], [], 0, 0, 0⟩
    ⟨1, "alice", "alice@example.com", "hash", 100⟩ rfl

/-! ## C2: create_expense on a missing user is a committed partial failure -/

/-- C2: when no user has the supplied id, create_expense fails with 404,
but the expense row is already committed: the resulting state holds the
new expense row and the users table — every account balance included —
is unchanged. -/
theorem create_expense_missing_user_partial_failure
    (exp : ExpenseCreate) (uid : Nat) (db : DB)
    (hu : db.users.find? (fun x => x.id == uid) = none) :
    (create_expense exp uid db).1 = Except.error ⟨404, "User not found"⟩ ∧
    (∃ stored : Expense,
      (create_expense exp uid db).2.expenses = db.expenses ++ [stored]) ∧
    (create_expense exp uid db).2.users = db.users := by
  refine ⟨?_, ⟨⟨db.next_expense_id, expenseTotal exp, serializeCategories exp,
    exp.date, uid⟩, ?_⟩, ?_⟩ <;> simp [create_expense, hu]

/-- Witness for C2: a store with a single user with id 1; creating an
expense for user id 2 fails with 404 yet records the expense. -/
theorem create_expense_missing_user_partial_failure_witness :
    (create_expense ⟨1, 2, 3, 4, 5, 6, 7, ⟨2024, 5, 1⟩⟩ 2
      ⟨[⟨1, "alice", "alice@example.com", "hash", 100⟩], [], [], [], 0, 0, 0⟩).1 =
      Except.error ⟨404, "User not found"⟩ ∧
    (∃ stored : Expense,
      (create_expense ⟨1, 2, 3, 4, 5, 6, 7, ⟨2024, 5, 1⟩⟩ 2
        ⟨[⟨1, "alice", "alice@example.com", "hash", 100⟩], [], [], [], 0, 0, 0⟩).2.expenses =
        [] ++ [stored]) ∧
    (create_expense ⟨1, 2, 3, 4, 5, 6, 7, ⟨2024, 5, 1⟩⟩ 2
      ⟨[⟨1, "alice", "alice@example.com", "hash", 100⟩], [], [], [], 0, 0, 0⟩).2.users =
      [⟨1, "alice", "alice@example.com", "hash", 100⟩] :=
  create_expense_missing_user_partial_failure ⟨1, 2, 3, 4, 5, 6, 7, ⟨2024, 5, 1⟩⟩ 2
    ⟨[⟨1, "alice", "alice@example.com", "hash", 100⟩], [], [], [], 0, 0, 0⟩ rfl

/-! ## C3: allocate_budget rejects negative values without writing -/

theorem negTruthy_of_neg (x : Rat) (h : x < 0) : negTruthy (some x) = true := by
  have hne : ¬ (x = 0) := ne_of_lt h
  simp [negTruthy, hne, h]

/-- C3: when at least one supplied category amount is negative,
allocate_budget returns a 400 error and the database — every
pre-existing allocation row included — is completely unchanged. -/
theorem allocate_budget_negative_rejected
    (b : BudgetAllocation) (uid : Nat) (db : DB)
    (h : ∃ v ∈ [b.groceries, b.fuel, b.bills, b.travel, b.apparel,
                b.utilities, b.other], ∃ x : Rat, v = some x ∧ x < 0) :
    allocate_budget b uid db =
      (Except.error ⟨400, "Budget values cannot be negative"⟩, db) := by
  have hneg : budgetHasNegative b = true := by
    rcases h with ⟨v, hv, x, rfl, hx⟩
    exact List.any_eq_true.mpr ⟨some x, hv, negTruthy_of_neg x hx⟩
  simp [allocate_budget, hneg]

/-- Witness for C3: a request with a negative fuel amount on a store with
one pre-existing allocation row is rejected with 400 and the state is
returned unchanged. -/
theorem allocate_budget_negative_rejected_witness :
    allocate_budget
      ⟨some 1, some (-2), some 0, none, some 4, some 5, some 6⟩ 7
      ⟨[], [], [⟨3, 7, some 1, some 2, some 3, some 4, some 5, some 6, some 7⟩],
        [], 0, 4, 0⟩ =
      (Except.error ⟨400, "Budget values cannot be negative"⟩,
        ⟨[], [], [⟨3, 7, some 1, some 2, some 3, some 4, some 5, some 6, some 7⟩],
          [], 0, 4, 0⟩) :=
  allocate_budget_negative_rejected
    ⟨some 1, some (-2), some 0, none, some 4, some 5, some 6⟩ 7
    ⟨[], [], [⟨3, 7, some 1, some 2, some 3, some 4, some 5, some 6, some 7⟩],
      [], 0, 4, 0⟩
    ⟨some (-2), by simp, -2, rfl, by norm_num⟩

/-! ## C10: update_balance touches only account_balance -/

/-- C10: for an existing user, update_balance adds new_amount to the
account balance and changes nothing else: the stored user keeps its id,
username, email and password hash, and the other tables are untouched. -/
theorem update_balance_only_touches_balance
    (amt : Rat) (uid : Nat) (db : DB) (u : User)
    (hu : db.users.find? (fun x => x.id == uid) = some u) :
    (update_balance amt uid db).1 =
      Except.ok { id := u.id, username := u.username, email := u.email,
                  password := u.password,
                  account_balance := u.account_balance + amt } ∧
    (update_balance amt uid db).2.users.find? (fun x => x.id == uid) =
      some { id := u.id, username := u.username, email := u.email,
             password := u.password,
             account_balance := u.account_balance + amt } ∧
    (update_balance amt uid db).2.expenses = db.expenses ∧
    (update_balance amt uid db).2.budget_allocations = db.budget_allocations ∧
    (update_balance amt uid db).2.categories = db.categories := by
  have hp : ∀ a : User,
      ((fun x => x.id == uid) ({ a with account_balance :=
        a.account_balance + amt } : User)) = ((fun x => x.id == uid) a) :=
    fun a => rfl
  refine ⟨?_, ?_, ?_, ?_, ?_⟩
  · simp [update_balance, hu]
  · simp only [update_balance, hu]
    rw [find?_updateFirst _ _ _ hp, hu]
    rfl
  · simp [update_balance, hu]
  · simp [update_balance, hu]
  · simp [update_balance, hu]

/-- Witness for C10: crediting 25 to the user with balance 100 yields
balance 125 with identity fields intact. -/
theorem update_balance_only_touches_balance_witness :
    (update_balance 25 1
      ⟨[⟨1, "alice", "alice@example.com", "hash", 100⟩], [], [], [], 0, 0, 0⟩).1 =
      Except.ok { id := 1, username := "alice", email := "alice@example.com",
                  password := "hash", account_balance := 100 + 25 } ∧
    (update_balance 25 1
      ⟨[⟨1, "alice", "alice@example.com", "hash", 100⟩], [], [], [], 0, 0, 0⟩).2.users.find?
        (fun x => x.id == 1) =
      some { id := 1, username := "alice", email := "alice@example.com",
             password := "hash", account_balance := 100 + 25 } ∧
    (update_balance 25 1
      ⟨[⟨1, "alice", "alice@example.com", "hash", 100⟩], [], [], [], 0, 0, 0⟩).2.expenses = [] ∧
    (update_balance 25 1
      ⟨[⟨1, "alice", "alice@example.com", "hash", 100⟩], [], [], [], 0, 0, 0⟩).2.budget_allocations = [] ∧
    (update_balance 25 1
      ⟨[⟨1, "alice", "alice@example.com", "hash", 100⟩], [], [], [], 0, 0, 0⟩).2.categories = [] :=
  update_balance_only_touches_balance 25 1
    ⟨[⟨1, "alice", "alice@example.com", "hash", 100⟩], [], [], [], 0, 0, 0⟩
    ⟨1, "alice", "alice@example.com", "hash", 100⟩ rfl

/-! ## C7: allocate_budget upserts -/

theorem filter_nil_of_find?_none (p : α → Bool) (l : List α)
    (h : l.find? p = none) : l.filter p = [] := by
  rw [find?_eq_head?_filter] at h
  exact List.head?_eq_none_iff.mp h

theorem budgetHasNegative_eq_false_of_nonneg (b : BudgetAllocation)
    (h : ∀ v ∈ [b.groceries, b.fuel, b.bills, b.travel, b.apparel,
                b.utilities, b.other], 0 ≤ v.getD 0) :
    budgetHasNegative b = false := by
  rw [budgetHasNegative, List.any_eq_false]
  intro v hv
  have hx := h v hv
  cases v with
  | none => simp [negTruthy]
  | some x =>
      simp only [Option.getD_some] at hx
      by_cases h0 : x = 0
      · simp [negTruthy, h0]
      · simp [negTruthy, h0, not_lt.mpr hx]

/-- After one allocate_budget call with no negative value, on a store
holding at most one allocation row of the user, the user has exactly one
allocation row and its category fields are the supplied amounts. -/
theorem allocate_budget_single_row (b : BudgetAllocation) (uid : Nat) (db : DB)
    (hb : budgetHasNegative b = false)
    (h0 : (db.budget_allocations.filter (fun r => r.user_id == uid)).length ≤ 1) :
    ∃ rA : BudgetAllocationTable,
      (allocate_budget b uid db).2.budget_allocations.filter
        (fun r => r.user_id == uid) = [rA] ∧
      rA.user_id = uid ∧ rA.groceries = b.groceries ∧ rA.fuel = b.fuel ∧
      rA.bills = b.bills ∧ rA.travel = b.travel ∧ rA.apparel = b.apparel ∧
      rA.utilities = b.utilities ∧ rA.other = b.other := by
  cases hf : db.budget_allocations.find? (fun r => r.user_id == uid) with
  | none =>
      refine ⟨⟨db.next_allocation_id, uid, b.groceries, b.fuel, b.bills,
        b.travel, b.apparel, b.utilities, b.other⟩,
        ?_, rfl, rfl, rfl, rfl, rfl, rfl, rfl, rfl⟩
      have hnil := filter_nil_of_find?_none _ _ hf
      simp [allocate_budget, hb, hf, List.filter_append, hnil]
  | some r =>
      have hfil := filter_singleton_of_find?_le_one _ _ _ hf h0
      have hr : r.user_id = uid := by
        have hmem : r ∈ db.budget_allocations.filter (fun x => x.user_id == uid) := by
          rw [hfil]; exact List.mem_singleton.mpr rfl
        have hp := (List.mem_filter.mp hmem).2
        simpa using hp
      refine ⟨applyBudget b r, ?_, hr, rfl, rfl, rfl, rfl, rfl, rfl, rfl⟩
      simp only [allocate_budget, hb, hf, Bool.false_eq_true, if_false]
      rw [filter_updateFirst (fun x => x.user_id == uid) (applyBudget b)
        db.budget_allocations (fun a => rfl), hfil]
      rfl

/-- C7: allocate_budget has upsert semantics.  Starting from a store with
at most one allocation row of the user, two sequential calls with
non-negative amounts leave exactly one allocation row of the user, and
its category fields are the amounts of the second call. -/
theorem allocate_budget_upsert_overwrites
    (b1 b2 : BudgetAllocation) (uid : Nat) (db : DB)
    (h0 : (db.budget_allocations.filter (fun r => r.user_id == uid)).length ≤ 1)
    (h1 : ∀ v ∈ [b1.groceries, b1.fuel, b1.bills, b1.travel, b1.apparel,
                 b1.utilities, b1.other], 0 ≤ v.getD 0)
    (h2 : ∀ v ∈ [b2.groceries, b2.fuel, b2.bills, b2.travel, b2.apparel,
                 b2.utilities, b2.other], 0 ≤ v.getD 0) :
    ∃ r : BudgetAllocationTable,
      (allocate_budget b2 uid (allocate_budget b1 uid db).2).2.budget_allocations.filter
        (fun x => x.user_id == uid) = [r] ∧
      r.user_id = uid ∧ r.groceries = b2.groceries ∧ r.fuel = b2.fuel ∧
      r.bills = b2.bills ∧ r.travel = b2.travel ∧ r.apparel = b2.apparel ∧
      r.utilities = b2.utilities ∧ r.other = b2.other := by
  obtain ⟨rA, hA, -⟩ := allocate_budget_single_row b1 uid db
    (budgetHasNegative_eq_false_of_nonneg b1 h1) h0
  have h0A : ((allocate_budget b1 uid db).2.budget_allocations.filter
      (fun r => r.user_id == uid)).length ≤ 1 := by
    rw [hA]; exact le_refl 1
  exact allocate_budget_single_row b2 uid (allocate_budget b1 uid db).2
    (budgetHasNegative_eq_false_of_nonneg b2 h2) h0A

/-- Witness for C7: two allocations for user 7 on an empty store; the
surviving single row carries the second call's amounts. -/
theorem allocate_budget_upsert_overwrites_witness :
    ∃ r : BudgetAllocationTable,
      (allocate_budget ⟨some 10, some 20, none, some 30, some 0, some 40, some 50⟩ 7
        (allocate_budget ⟨some 1, some 2, some 3, some 4, some 5, some 6, some 7⟩ 7
          ⟨[], [], [], [], 0, 0, 0⟩).2).2.budget_allocations.filter
        (fun x => x.user_id == 7) = [r] ∧
      r.user_id = 7 ∧ r.groceries = some 10 ∧ r.fuel = some 20 ∧
      r.bills = none ∧ r.travel = some 30 ∧ r.apparel = some 0 ∧
      r.utilities = some 40 ∧ r.other = some 50 :=
  allocate_budget_upsert_overwrites
    ⟨some 1, some 2, some 3, some 4, some 5, some 6, some 7⟩
    ⟨some 10, some 20, none, some 30, some 0, some 40, some 50⟩ 7
    ⟨[], [], [], [], 0, 0, 0⟩ (by decide) (by decide) (by decide)

/-! ## C8: add_category is idempotent under sequential calls -/

/-- C8: starting from a store with at most one category row matching the
pair (user, name), calling add_category twice sequentially with that
pair returns the already-exists message on the second call and leaves
exactly one matching row. -/
theorem add_category_idempotent (uid : Nat) (nm : String) (db : DB)
    (h : (db.categories.filter
      (fun c => c.user_id == some uid && c.name == nm)).length ≤ 1) :
    (add_category uid nm (add_category uid nm db).2).1 =
      "Category already exists" ∧
    ((add_category uid nm (add_category uid nm db).2).2.categories.filter
      (fun c => c.user_id == some uid && c.name == nm)).length = 1 := by
  cases hf : db.categories.find?
      (fun c => c.user_id == some uid && c.name == nm) with
  | none =>
      have hnil := filter_nil_of_find?_none _ _ hf
      have hdb1 : (add_category uid nm db).2 =
          { db with
            categories := db.categories ++ [⟨db.next_category_id, nm, some uid⟩]
            next_category_id := db.next_category_id + 1 } := by
        simp [add_category, hf]
      have hfil1 : (db.categories ++
            [(⟨db.next_category_id, nm, some uid⟩ : Expensecategory)]).filter
          (fun c => c.user_id == some uid && c.name == nm) =
          [(⟨db.next_category_id, nm, some uid⟩ : Expensecategory)] := by
        simp [List.filter_append, hnil]
      have hf1 : (db.categories ++
            [(⟨db.next_category_id, nm, some uid⟩ : Expensecategory)]).find?
          (fun c => c.user_id == some uid && c.name == nm) =
          some (⟨db.next_category_id, nm, some uid⟩ : Expensecategory) := by
        rw [find?_eq_head?_filter, hfil1]; rfl
      rw [hdb1]
      constructor
      · simp [add_category, hf1]
      · simp [add_category, hf1, hfil1]
  | some c =>
      have hfil := filter_singleton_of_find?_le_one _ _ _ hf h
      constructor
      · simp [add_category, hf]
      · simp [add_category, hf, hfil]

/-- Witness for C8: adding the same category twice for user 3 on an empty
store flags the duplicate and stores one row. -/
theorem add_category_idempotent_witness :
    (add_category 3 "coffee" (add_category 3 "coffee"
      ⟨[], [], [], [], 0, 0, 0⟩).2).1 = "Category already exists" ∧
    ((add_category 3 "coffee" (add_category 3 "coffee"
      ⟨[], [], [], [], 0, 0, 0⟩).2).2.categories.filter
      (fun c => c.user_id == some 3 && c.name == "coffee")).length = 1 :=
  add_category_idempotent 3 "coffee" ⟨[], [], [], [], 0, 0, 0⟩ (by decide)

/-! ## C5: get_budget_status response (corrected: id and user_id leak in,
NULL category fields make the response model reject) -/

theorem validateBudgetStatus_none (l : List (String × Option Rat))
    (h : ∃ kv ∈ l, kv.2 = none) : validateBudgetStatus l = none := by
  induction l with
  | nil => rcases h with ⟨kv, hm, -⟩; cases hm
  | cons a t ih =>
      rcases h with ⟨kv, hm, hn⟩
      rcases List.mem_cons.mp hm with rfl | hmt
      · obtain ⟨k, v⟩ := kv
        simp only at hn
        subst hn
        rfl
      · obtain ⟨k, v⟩ := a
        cases v with
        | none => rfl
        | some x => simp [validateBudgetStatus, ih ⟨kv, hmt, hn⟩]

/-- Counterexample to C5: the response dictionary is
`budget_allocation.__dict__` minus the SQLAlchemy state, so beside the
seven category fields it also carries the `id` and `user_id` columns of
the row; its key set is not exactly the seven category names. -/
theorem get_budget_status_extra_keys_counterexample :
    ∃ l, get_budget_status 7
        (⟨[], [], [⟨3, 7, some 1, some 2, some 3, some 4, some 5, some 6,
          some 7⟩], [], 0, 4, 0⟩ : DB) = Except.ok l ∧
      l.map Prod.fst ≠
        ["groceries", "fuel", "bills", "travel", "apparel", "utilities",
         "other"] ∧
      "id" ∈ l.map Prod.fst ∧ "user_id" ∈ l.map Prod.fst := by
  refine ⟨_, rfl, by decide, by decide, by decide⟩

/-- C5 amended: get_budget_status fails with 404 when the user has no
allocation row.  When the row exists and all seven category columns are
non-NULL, the total_allocated response holds the seven stored category
fields verbatim PLUS the row's id and user_id columns (numbers in the
response), and the computed remaining-budget figure is not part of the
response.  When the row exists but any category column is NULL, the
`Dict[str, float]` response model rejects the None value and the request
fails with 500. -/
theorem get_budget_status_amended_spec (uid : Nat) (db : DB) :
    ((∀ r ∈ db.budget_allocations, r.user_id ≠ uid) →
      get_budget_status uid db =
        Except.error ⟨404, "Budget allocation not found"⟩) ∧
    (∀ r ∈ db.budget_allocations, r.user_id = uid →
      (∀ s ∈ db.budget_allocations, s.user_id = uid → s = r) →
      ((∀ g f bi tr ap ut ot : Rat,
          r.groceries = some g → r.fuel = some f → r.bills = some bi →
          r.travel = some tr → r.apparel = some ap →
          r.utilities = some ut → r.other = some ot →
          get_budget_status uid db = Except.ok
            [("id", (r.id : Rat)), ("user_id", (r.user_id : Rat)),
             ("groceries", g), ("fuel", f), ("bills", bi), ("travel", tr),
             ("apparel", ap), ("utilities", ut), ("other", ot)]) ∧
       ((∃ v ∈ [r.groceries, r.fuel, r.bills, r.travel, r.apparel,
                r.utilities, r.other], v = none) →
          get_budget_status uid db =
            Except.error ⟨500, "Internal Server Error"⟩))) := by
  constructor
  · intro hnone
    have hf : db.budget_allocations.find? (fun r => r.user_id == uid) = none := by
      rw [List.find?_eq_none]
      intro x hx
      simp [hnone x hx]
    simp [get_budget_status, hf]
  · intro r hr hruid huniq
    have hf : db.budget_allocations.find? (fun x => x.user_id == uid) = some r := by
      refine find?_of_mem_unique _ _ _ hr (by simp [hruid]) ?_
      intro x hx hpx
      exact huniq x hx (by simpa using hpx)
    constructor
    · intro g f bi tr ap ut ot hg hf2 hbi htr hap hut hot
      simp [get_budget_status, hf, budgetStatusDict, validateBudgetStatus,
        hg, hf2, hbi, htr, hap, hut, hot]
    · rintro ⟨v, hvmem, rfl⟩
      have hval : validateBudgetStatus (budgetStatusDict r) = none := by
        apply validateBudgetStatus_none
        simp only [List.mem_cons, List.not_mem_nil, or_false] at hvmem
        rcases hvmem with h | h | h | h | h | h | h
        · exact ⟨("groceries", r.groceries), by simp [budgetStatusDict], h.symm⟩
        · exact ⟨("fuel", r.fuel), by simp [budgetStatusDict], h.symm⟩
        · exact ⟨("bills", r.bills), by simp [budgetStatusDict], h.symm⟩
        · exact ⟨("travel", r.travel), by simp [budgetStatusDict], h.symm⟩
        · exact ⟨("apparel", r.apparel), by simp [budgetStatusDict], h.symm⟩
        · exact ⟨("utilities", r.utilities), by simp [budgetStatusDict], h.symm⟩
        · exact ⟨("other", r.other), by simp [budgetStatusDict], h.symm⟩
      simp [get_budget_status, hf, hval]

/-- Witness for the amended C5: a store with one all-non-NULL allocation
row of user 7 yields the nine-entry response with id and user_id
included, and a store whose row for user 9 has a NULL bills column makes
the request fail with 500. -/
theorem get_budget_status_amended_spec_witness :
    get_budget_status 7
      (⟨[], [], [⟨3, 7, some 1, some 2, some 3, some 4, some 5, some 6,
        some 7⟩], [], 0, 4, 0⟩ : DB) = Except.ok
      [("id", 3), ("user_id", 7), ("groceries", 1), ("fuel", 2),
       ("bills", 3), ("travel", 4), ("apparel", 5), ("utilities", 6),
       ("other", 7)] ∧
    get_budget_status 9
      (⟨[], [], [⟨4, 9, some 1, some 2, none, some 4, some 0, some 6,
        some 7⟩], [], 0, 5, 0⟩ : DB) =
      Except.error ⟨500, "Internal Server Error"⟩ :=
  ⟨((get_budget_status_amended_spec 7
      (⟨[], [], [⟨3, 7, some 1, some 2, some 3, some 4, some 5, some 6,
        some 7⟩], [], 0, 4, 0⟩ : DB)).2
      ⟨3, 7, some 1, some 2, some 3, some 4, some 5, some 6, some 7⟩
      (by decide) rfl (by decide)).1 1 2 3 4 5 6 7 rfl rfl rfl rfl rfl rfl rfl,
   ((get_budget_status_amended_spec 9
      (⟨[], [], [⟨4, 9, some 1, some 2, none, some 4, some 0, some 6,
        some 7⟩], [], 0, 5, 0⟩ : DB)).2
      ⟨4, 9, some 1, some 2, none, some 4, some 0, some 6, some 7⟩
      (by decide) rfl (by decide)).2 ⟨none, by decide, rfl⟩⟩

/-! ## C4: get_user_categories versus predefined (NULL-owner) categories -/

/-- C4 (code bug): a predefined category has a NULL owner, but the
response model's user_id field is a non-nullable int, so building its
response object raises inside the try block and the handler answers 500
instead of returning the union; without any predefined category the
handler does return the user's categories. -/
theorem get_user_categories_global_category_500 :
    get_user_categories 1
      (⟨[], [], [], [⟨1, "food", none⟩, ⟨2, "gym", some 1⟩], 0, 0, 0⟩ : DB) =
      Except.error ⟨500, "Error fetching categories"⟩ ∧
    get_user_categories 1
      (⟨[], [], [], [⟨2, "gym", some 1⟩, ⟨3, "spa", some 2⟩], 0, 0, 0⟩ : DB) =
      Except.ok [⟨2, "gym", 1⟩] := by
  constructor <;> rfl

/-! ## C6: monthly aggregation over a half-open month range -/

theorem sumAmounts_singleton (e : Expense) : sumAmounts [e] = e.amount := by
  simp [sumAmounts]

theorem eraseDups_singleton [BEq α] (c : α) : List.eraseDups [c] = [c] := rfl

theorem groupCategories_nil : groupCategories [] = [] := rfl

theorem groupCategories_singleton (e : Expense) :
    groupCategories [e] = [(e.category, e.amount)] := by
  simp [groupCategories, eraseDups_singleton, sumAmounts]

/-- C6: the monthly summary covers the half-open range from the first of
the month to the first of the next month, December rolling to January of
the next year: an expense dated 2024-02-29 (the last day of February) is
counted in February's summary and not in March's, one dated 2024-03-01 is
counted in March's and not in February's, and an expense dated on
December 31 of any year is counted in that year's December summary. -/
theorem monthly_summary_half_open_range (uid i j : Nat) (a b : Rat)
    (cat1 cat2 : String) (db : DB)
    (he : db.expenses = [⟨i, a, cat1, ⟨2024, 2, 29⟩, uid⟩,
                         ⟨j, b, cat2, ⟨2024, 3, 1⟩, uid⟩]) :
    calculate_monthly_expenses uid 2 2024 db = Except.ok ⟨a, [(cat1, a)]⟩ ∧
    calculate_monthly_expenses uid 3 2024 db = Except.ok ⟨b, [(cat2, b)]⟩ ∧
    (∀ (y k : Nat) (c : Rat) (cat3 : String) (db2 : DB),
      db2.expenses = [⟨k, c, cat3, ⟨y, 12, 31⟩, uid⟩] →
      calculate_monthly_expenses uid 12 y db2 = Except.ok ⟨c, [(cat3, c)]⟩) := by
  refine ⟨?_, ?_, ?_⟩
  · simp [calculate_monthly_expenses, mkDate, daysInMonth, isLeapYear, he,
      monthlyFilter, dateLe, dateLt, sumAmounts, groupCategories,
      eraseDups_singleton]
  · simp [calculate_monthly_expenses, mkDate, daysInMonth, isLeapYear, he,
      monthlyFilter, dateLe, dateLt, sumAmounts, groupCategories,
      eraseDups_singleton]
  · intro y k c cat3 db2 he2
    simp [calculate_monthly_expenses, mkDate, daysInMonth, isLeapYear, he2,
      monthlyFilter, dateLe, dateLt, sumAmounts, groupCategories,
      eraseDups_singleton, Nat.lt_succ_self]

/-- Witness for C6: a store with one expense on 2024-02-29 and one on
2024-03-01 for user 5. -/
theorem monthly_summary_half_open_range_witness :
    calculate_monthly_expenses 5 2 2024
      (⟨[], [⟨0, 15, "catA", ⟨2024, 2, 29⟩, 5⟩, ⟨1, 7, "catB", ⟨2024, 3, 1⟩, 5⟩],
        [], [], 2, 0, 0⟩ : DB) = Except.ok ⟨15, [("catA", 15)]⟩ ∧
    calculate_monthly_expenses 5 3 2024
      (⟨[], [⟨0, 15, "catA", ⟨2024, 2, 29⟩, 5⟩, ⟨1, 7, "catB", ⟨2024, 3, 1⟩, 5⟩],
        [], [], 2, 0, 0⟩ : DB) = Except.ok ⟨7, [("catB", 7)]⟩ ∧
    (∀ (y k : Nat) (c : Rat) (cat3 : String) (db2 : DB),
      db2.expenses = [⟨k, c, cat3, ⟨y, 12, 31⟩, 5⟩] →
      calculate_monthly_expenses 5 12 y db2 = Except.ok ⟨c, [(cat3, c)]⟩) :=
  monthly_summary_half_open_range 5 0 1 15 7 "catA" "catB"
    (⟨[], [⟨0, 15, "catA", ⟨2024, 2, 29⟩, 5⟩, ⟨1, 7, "catB", ⟨2024, 3, 1⟩, 5⟩],
      [], [], 2, 0, 0⟩ : DB) rfl

/-! ## C9: monthly summary ignores the users table -/

theorem one_le_daysInMonth (y m : Nat) : 1 ≤ daysInMonth y m := by
  unfold daysInMonth
  split
  · split <;> norm_num
  · split <;> norm_num

theorem mkDate_first (y m : Nat) (h1 : 1 ≤ m) (h2 : m ≤ 12) :
    mkDate y m 1 = some ⟨y, m, 1⟩ := by
  unfold mkDate
  have h3 := one_le_daysInMonth y m
  simp [h1, h2, h3]

/-- C9: the monthly summary never looks the user up: for any user id —
one referencing no stored user included — and any valid month in which
the user has no expense in range, the endpoint succeeds with total 0 and
an empty per-category map. -/
theorem monthly_summary_no_match_zero (uid m y : Nat) (db : DB)
    (hm1 : 1 ≤ m) (hm2 : m ≤ 12)
    (h : ∀ e ∈ db.expenses, e.user_id = uid →
        ¬(dateLe ⟨y, m, 1⟩ e.date = true ∧
          dateLt e.date
            (if m < 12 then ⟨y, m + 1, 1⟩ else ⟨y + 1, 1, 1⟩) = true)) :
    calculate_monthly_expenses uid m y db = Except.ok ⟨0, []⟩ := by
  have hfil : db.expenses.filter
      (monthlyFilter ⟨y, m, 1⟩
        (if m < 12 then ⟨y, m + 1, 1⟩ else ⟨y + 1, 1, 1⟩) uid) = [] := by
    rw [List.filter_eq_nil_iff]
    intro e he
    simp only [monthlyFilter, Bool.and_eq_true, beq_iff_eq, not_and]
    intro hAB hC
    exact h e he hC hAB
  by_cases hlt : m < 12
  · rw [if_pos hlt] at hfil
    simp only [calculate_monthly_expenses]
    rw [mkDate_first y m hm1 hm2, if_pos hlt,
      mkDate_first y (m + 1) (by omega) (by omega)]
    simp [hfil, sumAmounts, groupCategories_nil]
  · rw [if_neg hlt] at hfil
    simp only [calculate_monthly_expenses]
    rw [mkDate_first y m hm1 hm2, if_neg hlt,
      mkDate_first (y + 1) 1 (by omega) (by omega)]
    simp [hfil, sumAmounts, groupCategories_nil]

/-- Witness for C9: a store with no users at all and one December
expense of another user yields total 0 and no categories for user 1 in
December 2024. -/
theorem monthly_summary_no_match_zero_witness :
    calculate_monthly_expenses 1 12 2024
      (⟨[], [⟨0, 50, "catC", ⟨2024, 12, 31⟩, 2⟩], [], [], 1, 0, 0⟩ : DB) =
      Except.ok ⟨0, []⟩ :=
  monthly_summary_no_match_zero 1 12 2024
    (⟨[], [⟨0, 50, "catC", ⟨2024, 12, 31⟩, 2⟩], [], [], 1, 0, 0⟩ : DB)
    (by decide) (by decide) (by decide)

end FamFin
